import Mathlib

/-!
Verification of the help-queue core (`src/queue.ts`): the `HelpQueue` state
machine (membership list, helper set, notification-subscriber set) and the
`HelpQueueDisplayManager` reconciliation logic.

Shallow embedding conventions:
* A `GuildMember` is identified by a `Nat` (equality by identity in the
  source; the member-state manager hands out one `MemberState` object per
  member, so reference equality on `MemberState` coincides with member
  identity).
* JS `Set` insertion/removal is modelled on duplicate-free lists:
  `Set.add` appends when absent, `Set.delete` filters.
* Asynchronous side effects (direct messages, display refreshes, registry
  calls) are recorded in an event list in the order the source issues them.
* Fallible operations (`Enqueue` via `TryAddToQueue`, `Dequeue`) return
  `Except String`; a thrown exception leaves the in-memory state exactly as
  it was at the throw point, and the remaining statements do not run.
-/

/-- Observable side effects issued by the queue operations, in program order:
direct messages (`send`), display refreshes (`UpdateDisplay` →
`OnQueueUpdate`), registry association updates (`TryAddToQueue` /
`TryRemoveFromQueue`), and `console.warn` logging. -/
inductive Event where
  | send (recipient : Nat) (text : String)
  | displayRefresh
  | registryAdd (m : Nat)
  | registryRemove (m : Nat)
  | warn
  deriving Repr, DecidableEq

/-- The mutable state of one `HelpQueue` (src/queue.ts lines 108-120)
together with the spec-modelled member-state registry.

* `queue`    : `private queue: MemberState[]`, front of the queue first.
* `helpers`  : `private helpers: Set<GuildMember>`.
* `notif_queue` : `private notif_queue: Set<GuildMember>`.
* `registry` : Modelled from the spec: the external member-state registry
  (`member_state_manager.ts`, not under src/). Per spec §3/§6 it "enforces
  ... single-queue-membership policy" and is what makes `members` duplicate
  free; we record the set of members currently associated with a queue. -/
structure QueueState where
  queue : List Nat
  helpers : List Nat
  notif_queue : List Nat
  registry : List Nat
  deriving Repr, DecidableEq

/-- The initial state of a freshly constructed `HelpQueue` (constructor,
lines 116-120): everything empty. -/
def initState : QueueState := ⟨[], [], [], []⟩

/-- JS `Set.add` on an insertion-ordered duplicate-free list: append if the
element is not already present. -/
def setAdd (x : Nat) (s : List Nat) : List Nat :=
  if x ∈ s then s else s ++ [x]

/-- JS `Set.delete`: remove the element. -/
def setDelete (x : Nat) (s : List Nat) : List Nat :=
  s.filter (fun y => y ≠ x)

/-- `get is_open()` (lines 126-128): `return this.helpers.size > 0`. -/
def is_open (s : QueueState) : Bool :=
  s.helpers.length > 0

/-- `Has(member)` (lines 130-132): membership test on `queue`. -/
def Has (member : Nat) (s : QueueState) : Bool :=
  member ∈ s.queue

/-- The text sent by `NotifyUsers` (line 225):
`"Hey! The ` + backtick + name + backtick + ` queue is now open!"`. -/
def notifyText (name : String) : String :=
  "Hey! The `" ++ name ++ "` queue is now open!"

/-- The heads-up text sent to helpers by `Enqueue` (line 185). -/
def headsUpText (name : String) (member : Nat) : String :=
  "Heads up! <@" ++ toString member ++ "> has joined \"" ++ name ++ "\"."

/-- `NotifyUsers` (lines 221-227): if `notif_queue` is empty, return; else
send each subscriber the open-notification and clear `notif_queue`. -/
def NotifyUsers (name : String) (s : QueueState) : QueueState × List Event :=
  if s.notif_queue.length == 0 then (s, [])
  else ({ s with notif_queue := [] },
        s.notif_queue.map (fun u => Event.send u (notifyText name)))

/-- `AddHelper(member, mute_notifs)` (lines 149-163): early return with a
warning when the member is already a helper; otherwise add to `helpers`,
call `NotifyUsers` when the helper count just became 1 and
`mute_notifs !== true`, then refresh the display. -/
def AddHelper (name : String) (member : Nat) (mute_notifs : Bool)
    (s : QueueState) : QueueState × List Event :=
  if member ∈ s.helpers then (s, [Event.warn])
  else
    let s1 := { s with helpers := setAdd member s.helpers }
    if s1.helpers.length == 1 && mute_notifs != true then
      let (s2, ev) := NotifyUsers name s1
      (s2, ev ++ [Event.displayRefresh])
    else (s1, [Event.displayRefresh])

/-- `RemoveHelper(member)` (lines 166-173): warn and return when the member
is not a helper; otherwise delete from `helpers` and refresh the display. -/
def RemoveHelper (member : Nat) (s : QueueState) : QueueState × List Event :=
  if member ∈ s.helpers then
    ({ s with helpers := setDelete member s.helpers }, [Event.displayRefresh])
  else (s, [Event.warn])

/-- `Enqueue(member)` (lines 176-188). `user_state.TryAddToQueue(this)` is
Modelled from the spec: `member_state_manager.ts` is not under src/; per
spec §3/§6 the registry enforces the at-most-one-queue policy that keeps
`members` duplicate free, so `TryAddToQueue` fails (a thrown `UserError`)
when the member is already associated with a queue, and otherwise records
the association. On success the member is pushed onto `queue`; if the queue
size just became 1 every helper is sent a heads-up; then the display is
refreshed. On failure the push never happens. -/
def Enqueue (name : String) (member : Nat) (s : QueueState) :
    Except String (QueueState × List Event) :=
  if member ∈ s.registry then Except.error "You are already in a queue"
  else
    let s1 := { s with registry := s.registry ++ [member],
                       queue := s.queue ++ [member] }
    let headsUp :=
      if s1.queue.length == 1 then
        s.helpers.map (fun h => Event.send h (headsUpText name member))
      else []
    Except.ok (s1, [Event.registryAdd member] ++ headsUp ++ [Event.displayRefresh])

/-- `Remove(member)` (lines 190-197). `TryRemoveFromQueue` is Modelled from
the spec: the registry call is a "blind association update" (spec §6) that
drops the member's association with this queue, without error when there is
none. The queue is then filtered by identity with the member's state object
(one state per member, so by member identity), and the display refreshed. -/
def Remove (member : Nat) (s : QueueState) : QueueState × List Event :=
  ({ s with registry := s.registry.filter (fun y => y ≠ member),
            queue := s.queue.filter (fun y => y ≠ member) },
   [Event.registryRemove member, Event.displayRefresh])

/-- `Dequeue()` (lines 199-209): `shift` the front of `queue`; when the
queue was empty throw `UserError('Empty queue')` before any state change or
display refresh; otherwise drop the head's registry association (modelled
as for `Remove`), refresh the display and return the head. -/
def Dequeue (s : QueueState) :
    Except String (QueueState × List Event × Nat) :=  match s.queue with
  | [] => Except.error "Empty queue"
  | h :: t =>
      Except.ok ({ s with queue := t,
                          registry := s.registry.filter (fun y => y ≠ h) },
                 ([Event.registryRemove h, Event.displayRefresh], h))

/-- `AddToNotifQueue(member)` (lines 211-214): `Set.add` on `notif_queue`,
no display refresh. -/
def AddToNotifQueue (member : Nat) (s : QueueState) : QueueState :=
  { s with notif_queue := setAdd member s.notif_queue }

/-- `RemoveFromNotifQueue(member)` (lines 216-219): `Set.delete` on
`notif_queue`, no display refresh. -/
def RemoveFromNotifQueue (member : Nat) (s : QueueState) : QueueState :=
  { s with notif_queue := setDelete member s.notif_queue }

/-- `Clear()` (lines 134-138): drop every queued member's registry
association, empty `queue`, refresh the display. -/
def Clear (s : QueueState) : QueueState × List Event :=
  ({ s with queue := [],
            registry := s.queue.foldl (fun r m => r.filter (fun y => y ≠ m)) s.registry },
   s.queue.map (fun m => Event.registryRemove m) ++ [Event.displayRefresh])

/-- `Peek()` (lines 230-236): head of `queue`, or absent. -/
def Peek (s : QueueState) : Option Nat :=
  s.queue.head?

/-- The public mutating operations of `HelpQueue`, used to range over
reachable states. -/
inductive Op where
  | enqueue (m : Nat)
  | remove (m : Nat)
  | dequeue
  | addHelper (m : Nat) (mute : Bool)
  | removeHelper (m : Nat)
  | addToNotif (m : Nat)
  | removeFromNotif (m : Nat)
  | clear
  deriving Repr, DecidableEq

/-- `true` exactly for the three membership operations `Enqueue`, `Remove`,
`Dequeue`. -/
def isQueueOp : Op → Bool
  | Op.enqueue _ => true
  | Op.remove _ => true
  | Op.dequeue => true
  | _ => false

/-- One public operation applied to a state. A thrown `UserError`
propagates to the caller of that one command and leaves the state as it was
at the throw point; subsequent operations still run. -/
def step (name : String) (s : QueueState) (op : Op) : QueueState × List Event :=
  match op with
  | Op.enqueue m =>
      match Enqueue name m s with
      | Except.ok r => r
      | Except.error _ => (s, [])
  | Op.remove m => Remove m s
  | Op.dequeue =>
      match Dequeue s with
      | Except.ok (s', ev, _) => (s', ev)
      | Except.error _ => (s, [])
  | Op.addHelper m mute => AddHelper name m mute s
  | Op.removeHelper m => RemoveHelper m s
  | Op.addToNotif m => (AddToNotifQueue m s, [])
  | Op.removeFromNotif m => (RemoveFromNotifQueue m s, [])
  | Op.clear => Clear s

/-- Run a sequence of operations, accumulating the emitted events. -/
def runOps (name : String) (ops : List Op) (s : QueueState) :
    QueueState × List Event :=
  match ops with
  | [] => (s, [])
  | op :: rest =>
      let r1 := step name s op
      let r2 := runOps name rest r1.1
      (r2.1, r1.2 ++ r2.2)

/-- The members successfully enqueued, in order, as recorded by the
`registryAdd` events (one per successful `Enqueue`, and only there). -/
def enqHistory (E : List Event) : List Nat :=
  E.filterMap (fun e =>
    match e with
    | Event.registryAdd m => some m
    | _ => none)

/-- The state observed by `HelpQueueDisplayManager` (lines 14-23):
`queue_message` is the tracked artifact handle (`Message | null`, by id),
`pinned_authored` the pinned messages of the display channel authored by
this client (`fetchPinned` followed by the author filter, lines 39-40),
by id. -/
structure DisplayState where
  queue_message : Option Nat
  pinned_authored : List Nat
  deriving Repr, DecidableEq

/-- `EnsureQueueSafe` (lines 38-51): fetch the pinned messages authored by
this client; more than one → delete them all and null the tracked handle;
zero → null the tracked handle; exactly one → no action. -/
def EnsureQueueSafe (d : DisplayState) : DisplayState :=
  if d.pinned_authored.length > 1 then
    { d with pinned_authored := [], queue_message := none }
  else if d.pinned_authored.length == 0 then
    { d with queue_message := none }
  else d

/-- The externally visible calls issued by `OnQueueUpdate` when
`queue_message === null` (lines 93-98), as atomic trace actions:
`fetchPinnedCall` starts `EnsureQueueSafe`'s pinned-message fetch,
`sendCall` starts `display_channel.send` (artifact creation),
`reconcileBody` is the continuation registered on the fetch (the author
filter and the delete/null logic of lines 40-50), `pinCall` pins the sent
message and `storeHandle` assigns `this.queue_message`. -/
inductive DispAction where
  | fetchPinnedCall
  | sendCall
  | reconcileBody
  | pinCall
  | storeHandle
  deriving Repr, DecidableEq

/-- The admissible executions of the `queue_message === null` branch of
`OnQueueUpdate` under JavaScript run-to-completion scheduling. The branch's
synchronous section calls `this.EnsureQueueSafe()` WITHOUT `await` (line
94) — which synchronously starts the pinned fetch and registers its `then`
continuation — and then calls `send` (line 95) before suspending on its
`await`. A promise continuation never runs inside the synchronous section
that registered it, so `reconcileBody` runs at some point after the
suspension, interleaved with the main task's remaining steps
`pinCall, storeHandle` (whose relative order is fixed); the fetch may
resolve before or after the send/pin round trips, giving exactly these
three traces. -/
def publishNoHandleTraces : List (List DispAction) :=
  [[DispAction.fetchPinnedCall, DispAction.sendCall, DispAction.reconcileBody,
    DispAction.pinCall, DispAction.storeHandle],
   [DispAction.fetchPinnedCall, DispAction.sendCall, DispAction.pinCall,
    DispAction.reconcileBody, DispAction.storeHandle],
   [DispAction.fetchPinnedCall, DispAction.sendCall, DispAction.pinCall,
    DispAction.storeHandle, DispAction.reconcileBody]]

/-- The membership invariant of `HelpQueue`: `queue` is duplicate free and
every queued member is associated with a queue in the registry (the
association made by `TryAddToQueue` on the successful `Enqueue`). -/
def queueInv (s : QueueState) : Prop :=
  s.queue.Nodup ∧ ∀ m ∈ s.queue, m ∈ s.registry

theorem enqHistory_append (E1 E2 : List Event) :
    enqHistory (E1 ++ E2) = enqHistory E1 ++ enqHistory E2 := by
  simp [enqHistory]

theorem enqHistory_sends (l : List Nat) (f : Nat → String) :
    enqHistory (l.map (fun u => Event.send u (f u))) = [] := by
  induction l with
  | nil => rfl
  | cons a l ih => exact ih

theorem queueInv_of_frame (s s' : QueueState) (E : List Event)
    (hq : s'.queue = s.queue) (hr : s'.registry = s.registry)
    (hI : queueInv s) :
    queueInv s' ∧ List.Sublist s'.queue (s.queue ++ enqHistory E) := by
  refine ⟨⟨hq ▸ hI.1, ?_⟩, ?_⟩
  · intro x hx
    rw [hq] at hx
    rw [hr]
    exact hI.2 x hx
  · rw [hq]
    exact List.sublist_append_left _ _

theorem addHelper_queue_registry_frame (name : String) (m : Nat) (mute : Bool)
    (s : QueueState) :
    (AddHelper name m mute s).1.queue = s.queue ∧
    (AddHelper name m mute s).1.registry = s.registry := by
  simp only [AddHelper, NotifyUsers]
  split
  · exact ⟨rfl, rfl⟩
  · split
    · split
      · exact ⟨rfl, rfl⟩
      · exact ⟨rfl, rfl⟩
    · exact ⟨rfl, rfl⟩

theorem step_preserves_queueInv (name : String) (s : QueueState) (op : Op)
    (hI : queueInv s) :
    queueInv (step name s op).1 ∧
      List.Sublist (step name s op).1.queue
        (s.queue ++ enqHistory (step name s op).2) := by
  obtain ⟨hnd, hsub⟩ := hI
  cases op with
  | enqueue m =>
      by_cases hm : m ∈ s.registry
      · have hstep : step name s (Op.enqueue m) = (s, []) := by
          simp [step, Enqueue, hm]
        rw [hstep]
        exact queueInv_of_frame s s [] rfl rfl ⟨hnd, hsub⟩
      · have hmq : m ∉ s.queue := fun hq => hm (hsub m hq)
        have hstep : step name s (Op.enqueue m) =
            ({ s with registry := s.registry ++ [m], queue := s.queue ++ [m] },
             [Event.registryAdd m] ++
               (if (s.queue ++ [m]).length == 1 then
                 s.helpers.map (fun x => Event.send x (headsUpText name m))
               else []) ++ [Event.displayRefresh]) := by
          simp [step, Enqueue, hm]
        rw [hstep]
        have hhist : enqHistory ([Event.registryAdd m] ++
            (if (s.queue ++ [m]).length == 1 then
              s.helpers.map (fun x => Event.send x (headsUpText name m))
            else []) ++ [Event.displayRefresh]) = [m] := by
          split <;> simp [enqHistory_append, enqHistory_sends, enqHistory]
        refine ⟨⟨?_, ?_⟩, ?_⟩
        · show (s.queue ++ [m]).Nodup
          simp [List.nodup_append, hnd, hmq]
        · intro x hx
          have hx' : x ∈ s.queue ++ [m] := hx
          show x ∈ s.registry ++ [m]
          rcases List.mem_append.mp hx' with h | h
          · exact List.mem_append.mpr (Or.inl (hsub x h))
          · exact List.mem_append.mpr (Or.inr h)
        · show List.Sublist (s.queue ++ [m]) (s.queue ++ enqHistory _)
          rw [hhist]
  | remove m =>
      have hstep : step name s (Op.remove m) =
          ({ s with registry := s.registry.filter (fun y => y ≠ m),
                    queue := s.queue.filter (fun y => y ≠ m) },
           [Event.registryRemove m, Event.displayRefresh]) := by
        simp [step, Remove]
      rw [hstep]
      refine ⟨⟨?_, ?_⟩, ?_⟩
      · show (s.queue.filter (fun y => y ≠ m)).Nodup
        exact hnd.filter _
      · intro x hx
        have hx' : x ∈ s.queue.filter (fun y => y ≠ m) := hx
        show x ∈ s.registry.filter (fun y => y ≠ m)
        rw [List.mem_filter] at hx' ⊢
        exact ⟨hsub x hx'.1, hx'.2⟩
      · show List.Sublist (s.queue.filter (fun y => y ≠ m)) (s.queue ++ enqHistory _)
        exact (List.filter_sublist s.queue).trans (List.sublist_append_left _ _)
  | dequeue =>
      cases hq : s.queue with
      | nil =>
          have hD : Dequeue s = Except.error "Empty queue" := by
            unfold Dequeue
            rw [hq]
          have hstep : step name s Op.dequeue = (s, []) := by
            simp [step, hD]
          rw [hstep]
          refine ⟨⟨hnd, hsub⟩, ?_⟩
          rw [hq]
          exact List.nil_sublist _
      | cons h t =>
          have hD : Dequeue s = Except.ok
              ({ s with queue := t,
                        registry := s.registry.filter (fun y => y ≠ h) },
               ([Event.registryRemove h, Event.displayRefresh], h)) := by
            unfold Dequeue
            rw [hq]
          have hstep : step name s Op.dequeue =
              ({ s with queue := t,
                        registry := s.registry.filter (fun y => y ≠ h) },
               [Event.registryRemove h, Event.displayRefresh]) := by
            simp [step, hD]
          rw [hstep]
          have hcons := List.nodup_cons.mp (hq ▸ hnd)
          refine ⟨⟨hcons.2, ?_⟩, ?_⟩
          · intro x hx
            have hx' : x ∈ t := hx
            show x ∈ s.registry.filter (fun y => y ≠ h)
            have hxq : x ∈ s.queue := hq ▸ List.mem_cons_of_mem h hx'
            have hxne : x ≠ h := fun e => hcons.1 (e ▸ hx')
            rw [List.mem_filter]
            exact ⟨hsub x hxq, by simpa using hxne⟩
          · show List.Sublist t ((h :: t) ++ enqHistory _)
            exact (List.sublist_cons_self h t).trans (List.sublist_append_left _ _)
  | addHelper m mute =>
      obtain ⟨hq, hr⟩ := addHelper_queue_registry_frame name m mute s
      exact queueInv_of_frame s _ _ hq hr ⟨hnd, hsub⟩
  | removeHelper m =>
      have hq : (step name s (Op.removeHelper m)).1.queue = s.queue := by
        simp only [step, RemoveHelper]
        split <;> rfl
      have hr : (step name s (Op.removeHelper m)).1.registry = s.registry := by
        simp only [step, RemoveHelper]
        split <;> rfl
      exact queueInv_of_frame s _ _ hq hr ⟨hnd, hsub⟩
  | addToNotif m =>
      exact queueInv_of_frame s _ _ rfl rfl ⟨hnd, hsub⟩
  | removeFromNotif m =>
      exact queueInv_of_frame s _ _ rfl rfl ⟨hnd, hsub⟩
  | clear =>
      have hq : (step name s Op.clear).1.queue = [] := rfl
      refine ⟨⟨?_, ?_⟩, ?_⟩
      · rw [hq]
        exact List.nodup_nil
      · intro x hx
        rw [hq] at hx
        simp at hx
      · rw [hq]
        exact List.nil_sublist _

theorem runOps_preserves_queueInv (name : String) (ops : List Op)
    (s : QueueState) (hI : queueInv s) :
    queueInv (runOps name ops s).1 ∧
      List.Sublist (runOps name ops s).1.queue
        (s.queue ++ enqHistory (runOps name ops s).2) := by
  induction ops generalizing s with
  | nil =>
      refine ⟨hI, ?_⟩
      exact List.sublist_append_left _ _
  | cons op rest ih =>
      obtain ⟨h1, h2⟩ := step_preserves_queueInv name s op hI
      obtain ⟨h3, h4⟩ := ih (step name s op).1 h1
      have hrw : runOps name (op :: rest) s =
          ((runOps name rest (step name s op).1).1,
           (step name s op).2 ++ (runOps name rest (step name s op).1).2) := rfl
      rw [hrw]
      refine ⟨h3, ?_⟩
      have h5 : List.Sublist (runOps name rest (step name s op).1).1.queue
          ((s.queue ++ enqHistory (step name s op).2) ++
            enqHistory (runOps name rest (step name s op).1).2) :=
        h4.trans (h2.append_right _)
      have h6 : (s.queue ++ enqHistory (step name s op).2) ++
            enqHistory (runOps name rest (step name s op).1).2 =
          s.queue ++ enqHistory ((step name s op).2 ++
            (runOps name rest (step name s op).1).2) := by
        rw [enqHistory_append, List.append_assoc]
      rw [h6] at h5
      exact h5

/-- Claim C1: for every sequence of `Enqueue`, `Remove` and `Dequeue`
operations starting from the empty `HelpQueue`, the members list never
contains the same member twice, and the members that remain are a
subsequence of the successful enqueues in order — FIFO relative order. -/
theorem members_nodup_and_fifo (name : String) (ops : List Op)
    (_hq : ∀ op ∈ ops, isQueueOp op = true) :
    (runOps name ops initState).1.queue.Nodup ∧
      List.Sublist (runOps name ops initState).1.queue
        (enqHistory (runOps name ops initState).2) := by
  have h0 : queueInv initState := ⟨List.nodup_nil, by intro m hm; simp [initState] at hm⟩
  obtain ⟨⟨hnd, _⟩, hsub⟩ := runOps_preserves_queueInv name ops initState h0
  refine ⟨hnd, ?_⟩
  simpa [initState] using hsub

theorem members_nodup_and_fifo_witness :
    (∀ op ∈ [Op.enqueue 1, Op.enqueue 2, Op.enqueue 3, Op.dequeue, Op.remove 2],
      isQueueOp op = true) ∧
    (runOps "q" [Op.enqueue 1, Op.enqueue 2, Op.enqueue 3, Op.dequeue, Op.remove 2]
      initState).1.queue.Nodup ∧
    List.Sublist
      (runOps "q" [Op.enqueue 1, Op.enqueue 2, Op.enqueue 3, Op.dequeue, Op.remove 2]
        initState).1.queue
      (enqHistory
        (runOps "q" [Op.enqueue 1, Op.enqueue 2, Op.enqueue 3, Op.dequeue, Op.remove 2]
          initState).2) :=
  ⟨by decide,
   members_nodup_and_fifo "q" [Op.enqueue 1, Op.enqueue 2, Op.enqueue 3, Op.dequeue,
     Op.remove 2] (by decide)⟩

/-- Claim C2: in every reachable state of a `HelpQueue`, `is_open` holds
exactly when the helper set is non-empty; no sequence of operations makes
the two disagree, because `is_open` is computed from `helpers.size`. -/
theorem is_open_iff_helpers_nonempty (name : String) (ops : List Op) :
    is_open (runOps name ops initState).1 = true ↔
      (runOps name ops initState).1.helpers ≠ [] := by
  simp [is_open, List.length_pos]

/-- Claim C3, counterexample: `AddToNotifQueue(7)` then
`AddHelper(1, mute_notifications=true)` transitions the queue from closed
to open (helpers goes from empty to `[1]`), yet `notif_subscribers` is NOT
drained — the source only calls `NotifyUsers` when `mute_notifs !== true`,
so the claim's "for any value of mute_notifications" is false. -/
theorem addHelper_muted_opening_keeps_subscribers_cex :
    (runOps "q" [Op.addToNotif 7, Op.addHelper 1 true] initState).1.helpers = [1] ∧
    (runOps "q" [Op.addToNotif 7, Op.addHelper 1 true] initState).1.notif_queue = [7] ∧
    (runOps "q" [Op.addToNotif 7, Op.addHelper 1 true] initState).1.notif_queue ≠ [] := by
  decide

/-- Claim C3, amended: every time the queue transitions from closed to open
(helper count 0 to 1 via `AddHelper`) with `mute_notifications` FALSE,
`notif_subscribers` is drained to empty. -/
theorem addHelper_unmuted_opening_drains_subscribers (name : String) (m : Nat)
    (s : QueueState) (h : s.helpers = []) :
    ((AddHelper name m false s).1).notif_queue = [] := by
  simp [AddHelper, h, setAdd, NotifyUsers]
  split <;> simp_all [List.length_eq_zero]

theorem addHelper_unmuted_opening_drains_subscribers_witness :
    (QueueState.mk [] [] [7] []).helpers = [] ∧
    ((AddHelper "q" 1 false (QueueState.mk [] [] [7] [])).1).notif_queue = [] :=
  ⟨rfl, addHelper_unmuted_opening_drains_subscribers "q" 1 _ rfl⟩

/-- Claim C4, counterexample: in the spec scenario (subscriber alice = 7,
then `AddHelper(ta1 = 1, mute_notifications=false)` on queue "algo-help")
the direct message actually sent is
`Hey! The \x60algo-help\x60 queue is now open!` (with backticks, line 225
of the source), not `The "algo-help" queue is now open!` as the claim
states, so no subscriber ever receives a message with the claimed text. -/
theorem notify_message_text_cex :
    (runOps "algo-help" [Op.addToNotif 7, Op.addHelper 1 false] initState).1.notif_queue = [] ∧
    (runOps "algo-help" [Op.addToNotif 7, Op.addHelper 1 false] initState).1.helpers = [1] ∧
    (runOps "algo-help" [Op.addToNotif 7, Op.addHelper 1 false] initState).2 =
      [Event.send 7 "Hey! The `algo-help` queue is now open!", Event.displayRefresh] ∧
    Event.send 7 "The \"algo-help\" queue is now open!" ∉
      (runOps "algo-help" [Op.addToNotif 7, Op.addHelper 1 false] initState).2 := by
  refine ⟨rfl, rfl, rfl, ?_⟩
  decide

/-- Claim C4, amended: when `AddHelper(member, mute_notifications=false)`
transitions the helper count from zero to one, every member that was in
`notif_subscribers` beforehand receives exactly one direct message — whose
text is `Hey! The \x60<name>\x60 queue is now open!` — and
`notif_subscribers` is empty afterwards. -/
theorem addHelper_opening_notifies_each_subscriber_once
    (name : String) (m u : Nat) (s : QueueState)
    (hh : s.helpers = []) (hnd : s.notif_queue.Nodup) (hu : u ∈ s.notif_queue) :
    ((AddHelper name m false s).2).count (Event.send u (notifyText name)) = 1 ∧
    ((AddHelper name m false s).1).notif_queue = [] := by
  have hne : s.notif_queue.length ≠ 0 := by
    intro h0
    rw [List.length_eq_zero] at h0
    simp [h0] at hu
  have hm : (AddHelper name m false s) =
      ({ s with helpers := [m], notif_queue := [] },
       s.notif_queue.map (fun x => Event.send x (notifyText name)) ++
         [Event.displayRefresh]) := by
    simp [AddHelper, hh, setAdd, NotifyUsers, hne]
  rw [hm]
  refine ⟨?_, rfl⟩
  rw [List.count_append]
  have hmapnd : (s.notif_queue.map (fun x => Event.send x (notifyText name))).Nodup :=
    hnd.map (fun a b e => by simpa using e)
  have hmem : Event.send u (notifyText name) ∈
      s.notif_queue.map (fun x => Event.send x (notifyText name)) :=
    List.mem_map_of_mem _ hu
  rw [List.count_eq_one_of_mem hmapnd hmem]
  simp

theorem addHelper_opening_notifies_each_subscriber_once_witness :
    (QueueState.mk [] [] [7] []).helpers = [] ∧
    (QueueState.mk [] [] [7] []).notif_queue.Nodup ∧
    7 ∈ (QueueState.mk [] [] [7] []).notif_queue ∧
    ((AddHelper "algo-help" 1 false (QueueState.mk [] [] [7] [])).2).count
        (Event.send 7 (notifyText "algo-help")) = 1 ∧
    ((AddHelper "algo-help" 1 false (QueueState.mk [] [] [7] [])).1).notif_queue = [] :=
  ⟨rfl, by decide, by decide,
   (addHelper_opening_notifies_each_subscriber_once "algo-help" 1 7 _ rfl
     (by decide) (by decide)).1,
   (addHelper_opening_notifies_each_subscriber_once "algo-help" 1 7 _ rfl
     (by decide) (by decide)).2⟩

/-- Claim C5: `Dequeue` on an empty queue fails with the user-facing
`Empty queue` error, leaves the whole queue state unchanged and emits no
event (in particular no display refresh); `Dequeue` on a non-empty queue
removes and returns the head of `members`, drops its registry association
and refreshes the display. -/
theorem dequeue_empty_fails_nonempty_returns_head (name : String) (s : QueueState) :
    (s.queue = [] →
      Dequeue s = Except.error "Empty queue" ∧ step name s Op.dequeue = (s, [])) ∧
    (∀ h t, s.queue = h :: t →
      Dequeue s = Except.ok
        ({ s with queue := t, registry := s.registry.filter (fun y => y ≠ h) },
         ([Event.registryRemove h, Event.displayRefresh], h))) := by
  constructor
  · intro he
    constructor
    · simp [Dequeue]; rw [he]
    · simp [step, Dequeue]; rw [he]
  · intro h t ht
    simp [Dequeue]
    rw [ht]

theorem dequeue_empty_fails_nonempty_returns_head_witness :
    (Dequeue initState = Except.error "Empty queue" ∧
      step "q" initState Op.dequeue = (initState, [])) ∧
    Dequeue (QueueState.mk [5] [] [] [5]) =
      Except.ok (QueueState.mk [] [] [] [],
        ([Event.registryRemove 5, Event.displayRefresh], 5)) :=
  ⟨(dequeue_empty_fails_nonempty_returns_head "q" initState).1 rfl,
   by
    have h2 := (dequeue_empty_fails_nonempty_returns_head "q"
      (QueueState.mk [5] [] [] [5])).2 5 [] rfl
    simpa using h2⟩

/-- Claim C6, counterexample: when the display surface holds exactly one
artifact authored by this system and none is tracked locally,
`EnsureQueueSafe` does NOT adopt it — the source has no branch for
`messages.size === 1`, so the local handle stays `null` instead of becoming
the found artifact as the claim states. -/
theorem ensureQueueSafe_single_not_adopted_cex :
    (EnsureQueueSafe (DisplayState.mk none [42])).queue_message = none ∧
    (EnsureQueueSafe (DisplayState.mk none [42])).queue_message ≠ some 42 := by
  decide

/-- Claim C6, amended: `EnsureQueueSafe` inspects the artifacts authored by
this system and: with zero found, clears the local artifact handle; with
more than one found, deletes all of them and clears the local handle; with
exactly one found, leaves the state unchanged (no adoption takes place). -/
theorem ensureQueueSafe_cases (d : DisplayState) :
    (d.pinned_authored = [] →
      EnsureQueueSafe d = { d with queue_message := none }) ∧
    (d.pinned_authored.length > 1 →
      EnsureQueueSafe d = { d with pinned_authored := [], queue_message := none }) ∧
    (d.pinned_authored.length = 1 → EnsureQueueSafe d = d) := by
  refine ⟨fun h0 => ?_, fun h1 => ?_, fun h2 => ?_⟩
  · simp [EnsureQueueSafe, h0]
  · simp [EnsureQueueSafe, h1]
  · simp [EnsureQueueSafe, h2]

theorem ensureQueueSafe_cases_witness :
    (EnsureQueueSafe (DisplayState.mk (some 9) []) = DisplayState.mk none []) ∧
    (EnsureQueueSafe (DisplayState.mk (some 9) [5, 6]) = DisplayState.mk none []) ∧
    (EnsureQueueSafe (DisplayState.mk (some 5) [5]) = DisplayState.mk (some 5) [5]) :=
  ⟨(ensureQueueSafe_cases (DisplayState.mk (some 9) [])).1 rfl,
   (ensureQueueSafe_cases (DisplayState.mk (some 9) [5, 6])).2.1 (by decide),
   (ensureQueueSafe_cases (DisplayState.mk (some 5) [5])).2.2 rfl⟩

/-- Claim C7: `AddHelper` is idempotent — whenever the member is already in
`helpers`, a second `AddHelper(member, m)` for any `m` returns the state
entirely unchanged and emits only the `console.warn`, in particular no
notification to subscribers and no display refresh. -/
theorem addHelper_idempotent (name : String) (s : QueueState) (m : Nat) (b : Bool)
    (h : m ∈ s.helpers) : AddHelper name m b s = (s, [Event.warn]) := by
  simp [AddHelper, h]

theorem addHelper_idempotent_witness :
    1 ∈ (QueueState.mk [] [1] [] []).helpers ∧
    AddHelper "q" 1 false (QueueState.mk [] [1] [] []) =
      (QueueState.mk [] [1] [] [], [Event.warn]) :=
  ⟨by decide, addHelper_idempotent "q" _ 1 false (by decide)⟩

/-- Claim C8: contrary to the claim, when `OnQueueUpdate` runs with no local
artifact handle the reconciliation does NOT complete before the new
artifact is created: `this.EnsureQueueSafe()` on line 94 is not awaited, so
in every admissible execution the `send` that creates the fresh artifact is
issued strictly before the reconcile continuation (the delete/clear logic)
can run. This contradicts the spec's intent that `Reconcile()` runs "first
... for safety" — a missing `await` in the source. -/
theorem publish_no_handle_send_before_reconcile (t : List DispAction)
    (h : t ∈ publishNoHandleTraces) :
    t.indexOf DispAction.sendCall < t.indexOf DispAction.reconcileBody := by
  simp [publishNoHandleTraces] at h
  rcases h with h | h | h <;> subst h <;> decide

theorem publish_no_handle_send_before_reconcile_witness :
    [DispAction.fetchPinnedCall, DispAction.sendCall, DispAction.reconcileBody,
      DispAction.pinCall, DispAction.storeHandle] ∈ publishNoHandleTraces ∧
    List.indexOf DispAction.sendCall
        [DispAction.fetchPinnedCall, DispAction.sendCall, DispAction.reconcileBody,
          DispAction.pinCall, DispAction.storeHandle] <
      List.indexOf DispAction.reconcileBody
        [DispAction.fetchPinnedCall, DispAction.sendCall, DispAction.reconcileBody,
          DispAction.pinCall, DispAction.storeHandle] :=
  ⟨by decide, publish_no_handle_send_before_reconcile _ (by decide)⟩

/-- Claim C9, counterexample: `Enqueue` does not succeed in EVERY state —
after a successful `Enqueue(5)` the member is associated with the queue in
the registry, and a second `Enqueue(5)` fails with the registry's
`UserError` (spec-modelled `TryAddToQueue`), even though `Enqueue` itself
performs no open-queue check. -/
theorem enqueue_already_queued_fails_cex :
    (runOps "q" [Op.enqueue 5] initState).1.queue = [5] ∧
    (runOps "q" [Op.enqueue 5] initState).1.helpers = [] ∧
    Enqueue "q" 5 (runOps "q" [Op.enqueue 5] initState).1 =
      Except.error "You are already in a queue" :=
  ⟨rfl, rfl, rfl⟩

/-- Claim C9, amended: `Enqueue` has no open-queue precondition — for every
state in which the member is not already registered in a queue, including a
closed queue (empty helpers set), `Enqueue(member)` succeeds, registers the
member with the external registry, and appends the member to `members`; the
gating of joining to open queues exists only in the external join button. -/
theorem enqueue_no_open_precondition (name : String) (m : Nat) (s : QueueState)
    (h : m ∉ s.registry) :
    ∃ ev, Enqueue name m s = Except.ok
        ({ s with registry := s.registry ++ [m], queue := s.queue ++ [m] }, ev) ∧
      Event.registryAdd m ∈ ev ∧ Event.displayRefresh ∈ ev := by
  refine ⟨[Event.registryAdd m] ++
      (if (s.queue ++ [m]).length == 1 then
        s.helpers.map (fun x => Event.send x (headsUpText name m))
      else []) ++ [Event.displayRefresh], ?_, by simp, by simp⟩
  simp [Enqueue, h]

theorem enqueue_no_open_precondition_witness :
    initState.helpers = [] ∧ 3 ∉ initState.registry ∧
    ∃ ev, Enqueue "q" 3 initState = Except.ok
        ({ initState with registry := initState.registry ++ [3],
                          queue := initState.queue ++ [3] }, ev) ∧
      Event.registryAdd 3 ∈ ev ∧ Event.displayRefresh ∈ ev :=
  ⟨rfl, by decide, enqueue_no_open_precondition "q" 3 initState (by decide)⟩

/-- Claim C10: `Remove(member)` for a member not currently in `members`
leaves `members` unchanged, yet still issues the registry disassociation
(`TryRemoveFromQueue`) and still triggers a display refresh; `helpers` and
`notif_subscribers` are unchanged by `Remove` in every case. -/
theorem remove_absent_member_frame (s : QueueState) (m : Nat) :
    ((Remove m s).1.helpers = s.helpers ∧
     (Remove m s).1.notif_queue = s.notif_queue) ∧
    (m ∉ s.queue →
      (Remove m s).1.queue = s.queue ∧
      (Remove m s).2 = [Event.registryRemove m, Event.displayRefresh]) := by
  refine ⟨⟨rfl, rfl⟩, fun h => ⟨?_, rfl⟩⟩
  show s.queue.filter (fun y => y ≠ m) = s.queue
  refine List.filter_eq_self.mpr ?_
  intro a ha
  simp
  rintro rfl
  exact h ha

theorem remove_absent_member_frame_witness :
    ((Remove 9 (QueueState.mk [1, 2] [3] [4] [1, 2])).1.helpers = [3] ∧
     (Remove 9 (QueueState.mk [1, 2] [3] [4] [1, 2])).1.notif_queue = [4]) ∧
    ((Remove 9 (QueueState.mk [1, 2] [3] [4] [1, 2])).1.queue = [1, 2] ∧
     (Remove 9 (QueueState.mk [1, 2] [3] [4] [1, 2])).2 =
       [Event.registryRemove 9, Event.displayRefresh]) :=
  ⟨(remove_absent_member_frame (QueueState.mk [1, 2] [3] [4] [1, 2]) 9).1,
   (remove_absent_member_frame (QueueState.mk [1, 2] [3] [4] [1, 2]) 9).2 (by decide)⟩
